import Mathlib

/-!
Shallow embedding of `examples/Linalg/Linalg1/lib/SliceOp.cpp`: the Linalg
`SliceOp` operation (construction, verification, textual parsing and printing,
derived accessors).  C++ `unsigned` rank arithmetic is modelled on `Nat` with
an explicit wrap-around modulus `2 ^ 32`.  A C++ `cast<T>` that would assert on
a value of the wrong dynamic type is modelled by `Option` (`none` = assertion
failure / process termination, never a recoverable error value).
-/

namespace Linalg

/-- Modulus of the C++ `unsigned` integers used for ranks and dimensions. -/
def uintMod : Nat := 2 ^ 32

/-- Unsigned decrement with wrap-around: the value of `rank - 1` computed on a
C++ `unsigned` holding `r < 2 ^ 32`. -/
def usub1 (r : Nat) : Nat := (r + (uintMod - 1)) % uintMod

/-- A view type is parameterized by an element type (opaque identifier) and a
rank (`ViewType::getElementType` / `ViewType::getRank`). -/
structure ViewType where
  elementType : Nat
  rank : Nat
deriving DecidableEq, Repr

/-- The dynamic type of an IR value, as discriminated by the `isa`/`cast`/
`dyn_cast` calls in `SliceOp.cpp`: `ViewType`, `RangeType`, `IndexType`, or any
other type of the host IR. -/
inductive MType where
  | view (v : ViewType)
  | range
  | index
  | other (id : Nat)
deriving DecidableEq, Repr

/-- `isa<ViewType>`. -/
def MType.isView : MType → Bool
  | .view _ => true
  | _ => false

/-- `isa<RangeType>` (equivalently, `dyn_cast<RangeType>` being non-null). -/
def MType.isRange : MType → Bool
  | .range => true
  | _ => false

/-- `isa<IndexType>` (equivalently, `dyn_cast<IndexType>` being non-null). -/
def MType.isIndex : MType → Bool
  | .index => true
  | _ => false

/-- `dyn_cast<ViewType>`: `some` payload on a view type, `none` otherwise. -/
def MType.dynCastView : MType → Option ViewType
  | .view v => some v
  | _ => none

/-- An SSA value: an identifier plus its type (`Value::getType`). -/
structure Value where
  id : Nat
  type : MType
deriving DecidableEq, Repr

/-- An attribute value: `IntegerAttr` (the `dim` attribute is built from a C++
`unsigned`, hence a `Nat`) or any other attribute kind. -/
inductive Attr where
  | int (v : Nat)
  | other (id : Nat)
deriving DecidableEq, Repr

/-- A named-attribute dictionary. -/
abbrev AttrDict := List (String × Attr)

/-- Modelled from the spec: `getSlicingDimAttrName()` (declared in
`linalg1/Ops.h`, not under `src/`) is the key `"dim"` of the slicing-dimension
attribute, matching the printed form `{dim = N}`. -/
def slicingDimAttrName : String := "dim"

/-- A constructed slice operation instance: its operand list, attribute
dictionary and result-type list (the generic `Operation` state populated by
`build` or `parse`). -/
structure SliceOp where
  operands : List Value
  attributes : AttrDict
  results : List MType
deriving DecidableEq, Repr

namespace SliceOp

/-- `getType()` on the unique result (result 0). -/
def getType (op : SliceOp) : Option MType :=
  op.results.head?

/-- `getViewType()`: `getType().cast<ViewType>()`; `none` models the failed
cast (and the missing result). -/
def getViewType (op : SliceOp) : Option ViewType :=
  op.results.head?.bind MType.dynCastView

/-- `getRank()`: rank of the result view type. -/
def getRank (op : SliceOp) : Option Nat :=
  op.getViewType.map ViewType.rank

/-- `getElementType()`: element type of the result view type. -/
def getElementType (op : SliceOp) : Option Nat :=
  op.getViewType.map ViewType.elementType

/-- Modelled from the spec: `getParentView()` (declared in `linalg1/Ops.h`,
not under `src/`) returns operand 0, the parent view. -/
def getParentView (op : SliceOp) : Option Value :=
  op.operands.head?

/-- `getParentViewType()`: `getParentView()->getType().cast<ViewType>()`;
`none` models the failed cast on a non-view operand 0. -/
def getParentViewType (op : SliceOp) : Option ViewType :=
  op.operands.head?.bind fun v => v.type.dynCastView

/-- `getParentRank()`: rank of the parent view type. -/
def getParentRank (op : SliceOp) : Option Nat :=
  op.getParentViewType.map ViewType.rank

/-- `getParentElementType()`: element type of the parent view type. -/
def getParentElementType (op : SliceOp) : Option Nat :=
  op.getParentViewType.map ViewType.elementType

/-- `isRankDecreasing()`: `getParentRank() != getRank()`; `none` models the
asserting casts inside either accessor. -/
def isRankDecreasing (op : SliceOp) : Option Bool := do
  let p ← op.getParentRank
  let r ← op.getRank
  pure (p ≠ r)

/-- Modelled from the spec: `getSlicingDim()` (declared in `linalg1/Ops.h`,
not under `src/`) reads the integer value of the `dim` attribute;
`none` models `getAttrOfType<IntegerAttr>` asserting when the attribute is
absent or not an integer attribute. -/
def getSlicingDim (op : SliceOp) : Option Nat :=
  match op.attributes.lookup slicingDimAttrName with
  | some (.int v) => some v
  | _ => none

end SliceOp

/-- Modelled from the spec: `getViewRank(view)` (from `linalg1/Utils.h`, not
under `src/`) reads the rank of the view value's view type, asserting on a
non-view type. -/
def getViewRank (v : Value) : Option Nat :=
  v.type.dynCastView.map ViewType.rank

/-- `SliceOp::build` (SliceOp.cpp:39-58).  Records the two operands, attaches
the `dim` attribute, and computes the result type: the parent view type itself
for a range indexing, a view of rank `rank - 1` (unsigned arithmetic) with the
parent's element type otherwise (asserting, via `cast<IndexType>`, that the
indexing is index-typed).  `none` models an assertion failure. -/
def build (view indexing : Value) (dim : Nat) : Option SliceOp := do
  let rank ← getViewRank view
  let viewType ← view.type.dynCastView
  let elementType := viewType.elementType
  let operands := [view, indexing]
  let attrs : AttrDict := [(slicingDimAttrName, Attr.int dim)]
  if indexing.type.isRange then
    pure { operands := operands, attributes := attrs,
           results := [MType.view viewType] }
  else if indexing.type.isIndex then
    pure { operands := operands, attributes := attrs,
           results := [MType.view ⟨elementType, usub1 rank⟩] }
  else
    none

/-- Outcome of `SliceOp::verify`: success, a structured recoverable failure
carrying the emitted message (`emitOpError`), or a crash (a failed `cast`
assertion — process termination, not a returned failure value). -/
inductive VerifyResult where
  | ok
  | failed (msg : String)
  | crash
deriving DecidableEq, Repr

/-- `SliceOp::verify` (SliceOp.cpp:60-75), checks in source order:
missing `dim` attribute; `dim >= getParentRank()` (note: `getParentRank`
`cast`s operand 0 to `ViewType`, crashing on a non-view operand 0 before the
next check can run); operand 0 not a view type; operand 1 neither range nor
index type. -/
def SliceOp.verify (op : SliceOp) : VerifyResult :=
  if (op.attributes.lookup slicingDimAttrName).isNone then
    .failed "slice op expects a dim attribute"
  else
    match op.getSlicingDim with
    | none => .crash
    | some dim =>
      match op.getParentRank with
      | none => .crash
      | some parentRank =>
        if dim ≥ parentRank then
          .failed "slicing dim must be in the [0 .. parent_rank) range"
        else
          match op.operands.head? with
          | none => .crash
          | some v0 =>
            if ¬ v0.type.isView then
              .failed "first operand must be of ViewType (i.e. a ViewOp or a SliceOp)"
            else
              match op.operands.get? 1 with
              | none => .crash
              | some v1 =>
                if ¬ v1.type.isRange ∧ ¬ v1.type.isIndex then
                  .failed "second operand must be of RangeType (i.e. a RangeOp) or IndexType"
                else
                  .ok

/-- The structured content of a slice operation's textual form, as delivered
by the generic sub-parsers of `SliceOp::parse` (SliceOp.cpp:82-87): the parent
operand name, the square-bracketed indexing operand names, the optional
attribute dictionary, and the colon-separated trailing type list. -/
structure ParseInput where
  viewInfo : Nat
  indexingInfo : List Nat
  attrDict : AttrDict
  types : List MType
deriving DecidableEq, Repr

/-- Outcome of `SliceOp::parse`: a populated operation state, a located error
(`parser->emitError(parser->getNameLoc(), msg)`), or the bare `failure()`
propagated from a generic sub-parser (SliceOp.cpp:87). -/
inductive ParseOutcome where
  | ok (op : SliceOp)
  | located (msg : String)
  | failed
deriving DecidableEq, Repr

/-- A run of `SliceOp::parse`: its outcome together with the types written to
the standard-error stream (`llvm::errs()`, SliceOp.cpp:100), a side channel
distinct from the located-error reporting. -/
structure ParseRun where
  outcome : ParseOutcome
  errsOut : List MType
deriving DecidableEq, Repr

/-- `SliceOp::parse` (SliceOp.cpp:77-115) on the structured input.  Modelled
from the spec where the generic sub-parsers are outside `src/`:
`parseColonTypeList` succeeds with a nonempty type list (else the bare
`failure()` of line 87), and `parseOperandList` with `Square` delimiter yields
the bracketed operand list of any length, the exactly-one requirement being
the explicit size check of lines 89-90.  `types.front()` / `types.back()` are
the head and last element of the type list; operand resolution (lines 111-114)
records each operand at its declared type. -/
def parse (inp : ParseInput) : ParseRun :=
  match inp.types with
  | [] => ⟨.failed, []⟩
  | t0 :: rest =>
    match inp.indexingInfo with
    | [ixInfo] =>
      (match t0.dynCastView with
       | none => ⟨.located "view type expected as first type", []⟩
       | some viewType =>
         let back := rest.getLastD t0
         if ¬ back.isIndex ∧ ¬ back.isRange then
           ⟨.located "indexing must be of range or index type", [back]⟩
         else
           let rank := if back.isIndex then usub1 viewType.rank else viewType.rank
           let resultViewType := MType.view ⟨viewType.elementType, rank⟩
           ⟨.ok { operands := [⟨inp.viewInfo, t0⟩, ⟨ixInfo, back⟩],
                  attributes := inp.attrDict,
                  results := [resultViewType] }, []⟩)
    | _ => ⟨.located "expected 1 indexing type", []⟩

/-- The structured text `SliceOp::print` (SliceOp.cpp:125-131) emits: parent
operand, bracketed indexing operand, the fixed `{dim = N}` block, then a
second block holding the remaining attributes (`printOptionalAttrDict` over
the attributes excluding `dim`, SliceOp.cpp:129; the block is absent when this
list is empty), then the trailing type list `parentViewType, indexingType`. -/
structure PrintedForm where
  viewInfo : Nat
  indexingInfo : List Nat
  dimValue : Nat
  otherAttrs : AttrDict
  types : List MType
deriving DecidableEq, Repr

/-- `SliceOp::print` (SliceOp.cpp:125-131) on an instance.  `none` models the
asserting accessors (`getAttrOfType<IntegerAttr>("dim").getInt()`,
`getParentViewType()`'s `cast<ViewType>`) on an ill-formed instance. -/
def SliceOp.printed (op : SliceOp) : Option PrintedForm := do
  let pv ← op.operands.head?
  let ix ← op.operands.get? 1
  let d ← op.getSlicingDim
  let pvt ← pv.type.dynCastView
  pure { viewInfo := pv.id,
         indexingInfo := [ix.id],
         dimValue := d,
         otherAttrs := op.attributes.filter
           (fun kv => kv.1 ≠ slicingDimAttrName),
         types := [MType.view pvt, ix.type] }

/-- Re-reading a printed form through `SliceOp::parse`'s grammar.  Modelled
from the spec where the generic sub-parsers are outside `src/`: the fixed
`{dim = N}` block is consumed by `parseOptionalAttributeDict`; when the second
attribute block is present (nonempty `otherAttrs`), the next token of the text
is `{` where the grammar admits only the colon-separated type list, so
`parseColonTypeList` fails and `parse` propagates the bare `failure()` of
SliceOp.cpp:87. -/
def reparse (pf : PrintedForm) : ParseRun :=
  if pf.otherAttrs ≠ [] then ⟨.failed, []⟩
  else parse ⟨pf.viewInfo, pf.indexingInfo,
              [(slicingDimAttrName, Attr.int pf.dimValue)], pf.types⟩

/-! Helper lemmas about unsigned rank arithmetic. -/

theorem uintMod_eq : uintMod = 4294967296 := by
  norm_num [uintMod]

theorem usub1_eq_of_pos (R : Nat) (h1 : 1 ≤ R) (h2 : R < uintMod) :
    usub1 R = R - 1 := by
  rw [uintMod_eq] at h2
  rw [usub1, uintMod_eq]
  omega

theorem usub1_zero_eq : usub1 0 = uintMod - 1 := by
  rw [usub1, uintMod_eq]

theorem usub1_ne_self (R : Nat) : usub1 R ≠ R := by
  rw [usub1, uintMod_eq]
  omega

/-- C1: for a parent view of rank `R ≥ 1` with element type `e`, both `build`
and `parse` compute the result view type by the same rule: a Range indexing
yields a view of rank `R` with element type `e`, an Index indexing yields a
view of rank `R - 1` with element type `e`; the result element type always
equals the parent's. -/
theorem slice_result_type_rule (e R vId ixId d : Nat) (ad : AttrDict)
    (h1 : 1 ≤ R) (h2 : R < uintMod) :
    ((build ⟨vId, .view ⟨e, R⟩⟩ ⟨ixId, .range⟩ d).map SliceOp.results
        = some [MType.view ⟨e, R⟩]
      ∧ (build ⟨vId, .view ⟨e, R⟩⟩ ⟨ixId, .index⟩ d).map SliceOp.results
        = some [MType.view ⟨e, R - 1⟩])
    ∧ ((parse ⟨vId, [ixId], ad, [MType.view ⟨e, R⟩, MType.range]⟩).outcome
        = .ok { operands := [⟨vId, .view ⟨e, R⟩⟩, ⟨ixId, .range⟩],
                attributes := ad, results := [MType.view ⟨e, R⟩] }
      ∧ (parse ⟨vId, [ixId], ad, [MType.view ⟨e, R⟩, MType.index]⟩).outcome
        = .ok { operands := [⟨vId, .view ⟨e, R⟩⟩, ⟨ixId, .index⟩],
                attributes := ad, results := [MType.view ⟨e, R - 1⟩] }) := by
  refine ⟨⟨?_, ?_⟩, ?_, ?_⟩ <;>
    simp [build, parse, getViewRank, MType.dynCastView, MType.isRange,
          MType.isIndex, usub1_eq_of_pos R h1 h2]

/-- Witness for C1 at `e = 7`, `R = 2`, `dim = 1`: an index slice of a rank-2
view produces a rank-1 view with the same element type. -/
theorem slice_result_type_rule_witness :
    (build ⟨0, MType.view ⟨7, 2⟩⟩ ⟨1, MType.index⟩ 1).map SliceOp.results
      = some [MType.view ⟨7, 1⟩] :=
  (slice_result_type_rule 7 2 0 1 1 [] (by decide) (by decide)).1.2

/-- C3: the claim asserts that with the `dim` attribute present, `verify`
returns the structured "first operand must be a view" failure whenever operand
0 is not view-typed.  The code instead evaluates `dim >= getParentRank()`
first, and `getParentRank` `cast`s operand 0's type to `ViewType`, asserting
(undefined behaviour in release builds) on a non-view operand 0 before the
line-66 view check can run: at the concrete failing input (dim = 0, operand 0
range-typed, operand 1 index-typed), `verify` crashes instead of returning a
failure value. -/
theorem verify_crashes_on_nonview_first_operand :
    SliceOp.verify { operands := [⟨0, MType.range⟩, ⟨1, MType.index⟩],
                     attributes := [(slicingDimAttrName, Attr.int 0)],
                     results := [MType.view ⟨0, 1⟩] } = .crash := by
  rfl

/-- C4: `verify` first requires the `dim` attribute, failing with the missing
message when it is absent regardless of the operands; and with the attribute
present (value `d`) and a view-typed operand 0 of rank `R`, it fails with the
out-of-range message whenever `R ≤ d` — in this order, before any operand-kind
check, short-circuiting on the first failure. -/
theorem verify_dim_attribute_checks (op : SliceOp) :
    (op.attributes.lookup slicingDimAttrName = none →
      op.verify = .failed "slice op expects a dim attribute")
    ∧ (∀ d v e R, op.attributes.lookup slicingDimAttrName = some (.int d) →
        op.operands.head? = some v → v.type = .view ⟨e, R⟩ → R ≤ d →
        op.verify = .failed "slicing dim must be in the [0 .. parent_rank) range") := by
  constructor
  · intro h
    simp [SliceOp.verify, h]
  · intro d v e R h1 h2 h3 h4
    simp [SliceOp.verify, SliceOp.getSlicingDim, SliceOp.getParentRank,
          SliceOp.getParentViewType, h1, h2, h3, MType.dynCastView, h4]

/-- Witness for C4: an instance with no attributes at all fails with the
missing-dim message, and a rank-1 parent with `dim = 1` and an invalid second
operand fails with the out-of-range message (the second operand is never
examined). -/
theorem verify_dim_attribute_checks_witness :
    SliceOp.verify { operands := [], attributes := [], results := [] }
      = .failed "slice op expects a dim attribute"
    ∧ SliceOp.verify { operands := [⟨0, MType.view ⟨0, 1⟩⟩, ⟨1, MType.other 0⟩],
                       attributes := [(slicingDimAttrName, Attr.int 1)],
                       results := [] }
      = .failed "slicing dim must be in the [0 .. parent_rank) range" :=
  ⟨(verify_dim_attribute_checks _).1 rfl,
   (verify_dim_attribute_checks _).2 1 ⟨0, MType.view ⟨0, 1⟩⟩ 0 1 rfl rfl rfl
     (by decide)⟩

/-- C5: whenever the bracketed indexing-operand list has zero or at least two
entries (and the rest of the text parsed, i.e. the trailing type list is
nonempty), `parse` fails with the located error "expected 1 indexing type". -/
theorem parse_expects_one_indexing (inp : ParseInput)
    (hne : inp.types ≠ []) (hlen : inp.indexingInfo.length ≠ 1) :
    (parse inp).outcome = .located "expected 1 indexing type" := by
  obtain ⟨vI, ixI, ad, tys⟩ := inp
  cases tys with
  | nil => exact absurd rfl hne
  | cons t0 rest =>
    cases ixI with
    | nil => rfl
    | cons a t =>
      cases t with
      | nil => exact absurd rfl hlen
      | cons b t2 => rfl

/-- Witness for C5 at zero entries and at two entries. -/
theorem parse_expects_one_indexing_witness :
    (parse ⟨0, [], [], [MType.view ⟨0, 1⟩, MType.index]⟩).outcome
      = .located "expected 1 indexing type"
    ∧ (parse ⟨0, [1, 2], [], [MType.view ⟨0, 1⟩, MType.index]⟩).outcome
      = .located "expected 1 indexing type" :=
  ⟨parse_expects_one_indexing _ (by decide) (by decide),
   parse_expects_one_indexing _ (by decide) (by decide)⟩

/-- C6: calling `build` on a view-typed parent with an indexing value that is
neither range- nor index-typed hits the `cast<IndexType>` assertion and does
not recover (never silently constructs a result); with a range- or index-typed
indexing value the assertion branch is never triggered and a result is
constructed. -/
theorem build_requires_range_or_index (v ix : Value) (d e R : Nat)
    (hv : v.type = .view ⟨e, R⟩) :
    ((¬ ix.type.isRange ∧ ¬ ix.type.isIndex) → build v ix d = none)
    ∧ ((ix.type.isRange ∨ ix.type.isIndex) → ∃ op, build v ix d = some op) := by
  constructor
  · intro h
    simp [build, getViewRank, hv, MType.dynCastView, h.1, h.2]
  · intro h
    rcases h with h | h <;>
      simp [build, getViewRank, hv, MType.dynCastView, h]
    split <;> simp

/-- Witness for C6: a rank-1 parent with a non-range non-index indexing value
makes `build` assert, while a range-typed indexing value builds a result. -/
theorem build_requires_range_or_index_witness :
    build ⟨0, MType.view ⟨0, 1⟩⟩ ⟨1, MType.other 0⟩ 0 = none
    ∧ ∃ op, build ⟨0, MType.view ⟨0, 1⟩⟩ ⟨1, MType.range⟩ 0 = some op :=
  ⟨(build_requires_range_or_index ⟨0, MType.view ⟨0, 1⟩⟩ ⟨1, MType.other 0⟩
      0 0 1 rfl).1 (by decide),
   (build_requires_range_or_index ⟨0, MType.view ⟨0, 1⟩⟩ ⟨1, MType.range⟩
      0 0 1 rfl).2 (Or.inl rfl)⟩

/-- C9: neither `build` nor `parse` guards the rank decrement with a rank
check: a rank-0 parent view with an index-typed indexing value yields a result
view of rank `2 ^ 32 - 1` (the unsigned wrap-around of `0 - 1`) in both, and
neither rejects the input. -/
theorem rank_zero_index_wraps (e vId ixId d : Nat) (ad : AttrDict) :
    (build ⟨vId, MType.view ⟨e, 0⟩⟩ ⟨ixId, MType.index⟩ d).map SliceOp.results
      = some [MType.view ⟨e, uintMod - 1⟩]
    ∧ (parse ⟨vId, [ixId], ad, [MType.view ⟨e, 0⟩, MType.index]⟩).outcome
      = .ok { operands := [⟨vId, MType.view ⟨e, 0⟩⟩, ⟨ixId, MType.index⟩],
              attributes := ad,
              results := [MType.view ⟨e, uintMod - 1⟩] } := by
  constructor <;>
    simp [build, parse, getViewRank, MType.dynCastView, MType.isRange,
          MType.isIndex, usub1_zero_eq]

/-- C7: for every instance constructed by `build` from a view-typed parent
and a range- or index-typed indexing value, `isRankDecreasing()` is true iff
the result rank differs from the parent rank, which holds iff the indexing
operand was index-typed; the result rank is the parent rank for a range and
its unsigned decrement for an index. -/
theorem isRankDecreasing_iff_index (v ix : Value) (d e R : Nat) (op : SliceOp)
    (hv : v.type = .view ⟨e, R⟩)
    (hix : ix.type = .range ∨ ix.type = .index)
    (hb : build v ix d = some op) :
    op.isRankDecreasing = some ix.type.isIndex
    ∧ op.getRank = some (if ix.type.isIndex then usub1 R else R) := by
  rcases hix with h | h
  · rw [build] at hb
    simp [getViewRank, hv, MType.dynCastView, h, MType.isRange,
          MType.isIndex] at hb
    subst hb
    simp [SliceOp.isRankDecreasing, SliceOp.getRank, SliceOp.getParentRank,
          SliceOp.getViewType, SliceOp.getParentViewType, hv, h,
          MType.dynCastView, MType.isIndex]
  · rw [build] at hb
    simp [getViewRank, hv, MType.dynCastView, h, MType.isRange,
          MType.isIndex] at hb
    subst hb
    simp [SliceOp.isRankDecreasing, SliceOp.getRank, SliceOp.getParentRank,
          SliceOp.getViewType, SliceOp.getParentViewType, hv, h,
          MType.dynCastView, MType.isIndex]
    exact (usub1_ne_self R).symm

/-- Witness for C7, the two concrete rank-2 scenarios: an index slice
(`dim = 1`) has rank 1 and is rank-decreasing; a range slice of the same
parent keeps rank 2 and is not. -/
theorem isRankDecreasing_iff_index_witness :
    (∃ op, build ⟨0, MType.view ⟨7, 2⟩⟩ ⟨1, MType.index⟩ 1 = some op
      ∧ op.isRankDecreasing = some true ∧ op.getRank = some 1)
    ∧ (∃ op, build ⟨0, MType.view ⟨7, 2⟩⟩ ⟨1, MType.range⟩ 0 = some op
      ∧ op.isRankDecreasing = some false ∧ op.getRank = some 2) := by
  constructor
  · refine ⟨_, rfl, ?_⟩
    have h := isRankDecreasing_iff_index ⟨0, MType.view ⟨7, 2⟩⟩
      ⟨1, MType.index⟩ 1 7 2 _ rfl (Or.inr rfl) rfl
    simpa [MType.isIndex, usub1, uintMod] using h
  · refine ⟨_, rfl, ?_⟩
    have h := isRankDecreasing_iff_index ⟨0, MType.view ⟨7, 2⟩⟩
      ⟨1, MType.range⟩ 0 7 2 _ rfl (Or.inl rfl) rfl
    simpa [MType.isIndex] using h

/-- C10: on the parse failure path where the second declared type is neither
range nor index (and the first is a view type), `parse` writes the offending
type to the standard-error stream — a side channel separate from the located
error it then reports. -/
theorem parse_writes_offending_type_to_errs (vId ixId : Nat) (ad : AttrDict)
    (tv tb : MType) (hv : tv.isView = true)
    (hb : ¬ tb.isIndex = true ∧ ¬ tb.isRange = true) :
    parse ⟨vId, [ixId], ad, [tv, tb]⟩
      = ⟨.located "indexing must be of range or index type", [tb]⟩ := by
  cases tv <;> simp [MType.isView] at hv
  simp [parse, MType.dynCastView, hb.1, hb.2]

/-- Witness for C10 at a concrete non-range non-index second type. -/
theorem parse_writes_offending_type_to_errs_witness :
    parse ⟨0, [1], [], [MType.view ⟨0, 1⟩, MType.other 9]⟩
      = ⟨.located "indexing must be of range or index type",
         [MType.other 9]⟩ :=
  parse_writes_offending_type_to_errs 0 1 [] (MType.view ⟨0, 1⟩)
    (MType.other 9) rfl (by decide)

/-- C8: `verify` returns success iff the four operand/attribute checks pass
(the `dim` attribute is present as an integer attribute, its value is below
the parent view's rank, operand 0 is view-typed, operand 1 is range- or
index-typed), and it never inspects the result-type list: two instances
differing only in their results verify identically, so a result type
violating the rank or element-type rule still passes. -/
theorem verify_ok_iff_checks (op : SliceOp) (res res2 : List MType) :
    (op.verify = .ok ↔
      ∃ d v0 e R v1,
        op.attributes.lookup slicingDimAttrName = some (.int d)
        ∧ op.operands.head? = some v0 ∧ v0.type = .view ⟨e, R⟩ ∧ d < R
        ∧ op.operands.get? 1 = some v1
        ∧ (v1.type.isRange = true ∨ v1.type.isIndex = true))
    ∧ SliceOp.verify { op with results := res }
        = SliceOp.verify { op with results := res2 } := by
  refine ⟨⟨?_, ?_⟩, rfl⟩
  · intro h
    unfold SliceOp.verify at h
    split at h
    next => simp at h
    next hpresent =>
      split at h
      next => simp at h
      next dim heq =>
        split at h
        next => simp at h
        next parentRank heq2 =>
          split at h
          next => simp at h
          next hge =>
            split at h
            next => simp at h
            next v0 heq3 =>
              split at h
              next => simp at h
              next hv0 =>
                split at h
                next => simp at h
                next v1 heq4 =>
                  split at h
                  next => simp at h
                  next hkind =>
                    have hlk : op.attributes.lookup slicingDimAttrName
                        = some (.int dim) := by
                      unfold SliceOp.getSlicingDim at heq
                      split at heq <;> simp_all
                    obtain ⟨vt, hvt⟩ : ∃ vt, v0.type.dynCastView = some vt
                        ∧ vt.rank = parentRank := by
                      simp [SliceOp.getParentRank, SliceOp.getParentViewType,
                            heq3] at heq2
                      obtain ⟨vt, h1, h2⟩ := heq2
                      exact ⟨vt, h1, h2⟩
                    obtain ⟨hcast, hrank⟩ := hvt
                    obtain ⟨e, R, hty⟩ : ∃ e R, v0.type = .view ⟨e, R⟩ := by
                      cases hvt2 : v0.type <;>
                        simp [hvt2, MType.dynCastView] at hcast
                      exact ⟨_, _, rfl⟩
                    refine ⟨dim, v0, e, R, v1, hlk, heq3, hty, ?_, heq4, ?_⟩
                    · have : vt.rank = R := by
                        rw [hty] at hcast
                        simp [MType.dynCastView] at hcast
                        rw [← hcast]
                      omega
                    · by_contra hc
                      push_neg at hc
                      exact hkind ⟨by simp [hc.1], by simp [hc.2]⟩
  · rintro ⟨d, v0, e, R, v1, h1, h2, h3, h4, h5, h6⟩
    have hlt : ¬ d ≥ R := by omega
    simp only [SliceOp.verify, SliceOp.getSlicingDim, SliceOp.getParentRank,
               SliceOp.getParentViewType, h1, h2, h3, h5, MType.dynCastView,
               MType.isView, Option.isNone_some, Option.some_bind,
               Option.map_some', Bool.false_eq_true, if_false]
    simp [hlt, h2, h5]
    rcases h6 with h6 | h6 <;> simp [h6]

/-- Witness for C8: an instance passing the four checks verifies successfully
even though its result type (rank 2 for an index slice of a rank-2 parent)
violates the rank rule. -/
theorem verify_ok_iff_checks_witness :
    SliceOp.verify { operands := [⟨0, MType.view ⟨7, 2⟩⟩, ⟨1, MType.index⟩],
                     attributes := [(slicingDimAttrName, Attr.int 0)],
                     results := [MType.view ⟨7, 2⟩] } = .ok :=
  (verify_ok_iff_checks _ [] []).1.mpr
    ⟨0, ⟨0, MType.view ⟨7, 2⟩⟩, 7, 2, ⟨1, MType.index⟩,
     rfl, rfl, rfl, by decide, rfl, Or.inr rfl⟩

/-- C2 counterexample: a valid slice instance (verify succeeds, and its result
type follows the construction rule) that carries one attribute besides `dim`
prints as `... {dim = 0} {foo = 4} : ...`, and re-parsing that printed text
fails — the grammar admits a single attribute dictionary before the type list
— so no operationally-equivalent instance is reconstructed. -/
theorem print_parse_round_trip_counterexample :
    SliceOp.verify
        { operands := [⟨0, MType.view ⟨7, 2⟩⟩, ⟨1, MType.index⟩],
          attributes := [(slicingDimAttrName, Attr.int 0), ("foo", Attr.int 4)],
          results := [MType.view ⟨7, 1⟩] } = .ok
    ∧ ∃ pf,
        SliceOp.printed
            { operands := [⟨0, MType.view ⟨7, 2⟩⟩, ⟨1, MType.index⟩],
              attributes := [(slicingDimAttrName, Attr.int 0),
                             ("foo", Attr.int 4)],
              results := [MType.view ⟨7, 1⟩] }
          = some pf
        ∧ pf.otherAttrs = [("foo", Attr.int 4)]
        ∧ reparse pf = ⟨.failed, []⟩ := by
  exact ⟨rfl, _, rfl, rfl, rfl⟩

/-- C2 amended: for every valid slice instance whose attribute dictionary
holds the `dim` attribute alone (the shape `build` constructs, so the printed
second attribute block is absent), printing and then parsing the printed text
reconstructs an operationally-equivalent instance: same operand types, same
`dim` attribute value, same result type. -/
theorem print_parse_round_trip_dim_only (op : SliceOp) (v i : Value)
    (e R d : Nat)
    (hops : op.operands = [v, i])
    (hv : v.type = .view ⟨e, R⟩)
    (hi : i.type = .range ∨ i.type = .index)
    (hattrs : op.attributes = [(slicingDimAttrName, .int d)])
    (hres : op.results
      = [.view ⟨e, if i.type = .index then usub1 R else R⟩]) :
    ∃ pf op2, op.printed = some pf
      ∧ (reparse pf).outcome = .ok op2
      ∧ op2.operands.map Value.type = op.operands.map Value.type
      ∧ op2.attributes.lookup slicingDimAttrName = some (.int d)
      ∧ op2.results = op.results := by
  obtain ⟨ops, ats, rs⟩ := op
  subst hops hattrs hres
  obtain ⟨vid, vty⟩ := v
  obtain ⟨iid, ity⟩ := i
  subst hv
  rcases hi with hi | hi <;> subst hi <;>
    exact ⟨_, _, rfl, rfl, rfl, rfl, rfl⟩

/-- Witness for the amended C2: a built rank-2 index slice round-trips
through its printed text. -/
theorem print_parse_round_trip_dim_only_witness :
    ∃ pf op2,
      SliceOp.printed
          { operands := [⟨0, MType.view ⟨7, 2⟩⟩, ⟨1, MType.index⟩],
            attributes := [(slicingDimAttrName, Attr.int 1)],
            results := [MType.view ⟨7, usub1 2⟩] }
        = some pf
      ∧ (reparse pf).outcome = .ok op2
      ∧ op2.operands.map Value.type
          = [MType.view ⟨7, 2⟩, MType.index]
      ∧ op2.attributes.lookup slicingDimAttrName = some (Attr.int 1)
      ∧ op2.results = [MType.view ⟨7, usub1 2⟩] := by
  obtain ⟨pf, op2, h1, h2, h3, h4, h5⟩ :=
    print_parse_round_trip_dim_only
      { operands := [⟨0, MType.view ⟨7, 2⟩⟩, ⟨1, MType.index⟩],
        attributes := [(slicingDimAttrName, Attr.int 1)],
        results := [MType.view ⟨7, usub1 2⟩] }
      ⟨0, MType.view ⟨7, 2⟩⟩ ⟨1, MType.index⟩ 7 2 1
      rfl rfl (Or.inr rfl) rfl (by simp)
  exact ⟨pf, op2, h1, h2, h3, h4, h5⟩

end Linalg
